import Mathlib

/-!
Shallow embedding of the snake game core from `src/main.rs`.

The rendering/windowing layer (piston, OpenGL) is excluded; the embedded
part is the game-state engine: `Snake` (body, direction) with its
operations, and `Game` (snake, food) with `update`, `pressed`,
`place_food`, `is_end`, `restart`.

Modelling conventions:
  - `i32` coordinates become `Int` (all reachable values stay far from the
    `i32` range limits, so wrapping never matters).
  - `LinkedList<BodyPart>` becomes `List BodyPart` (front of the Rust list
    is the head of the Lean list; `push_front` is `cons`, `pop_back` is
    `dropLast`, `back` is `getLast?`).
  - A Rust panic (`expect` on an empty body, `gen_range` with an empty
    range, `unwrap`) is modelled as `none`; fallible operations return
    `Option`.
  - `rng.gen_range(1, n)` draws uniformly from `[1, n)` and panics when
    `1 >= n`.  The draw is passed in as an explicit `pos : Nat` argument;
    a call with a draw outside `[1, n)` returns `none`, and hence the call
    returns `none` for every draw exactly when `n <= 1`, which is exactly
    when the Rust code panics.
-/

set_option maxRecDepth 40000

/-- `const GRID_ROWS: i32 = 20;` -/
def GRID_ROWS : Int := 20

/-- `const GRID_COLUMNS: i32 = 20;` -/
def GRID_COLUMNS : Int := 20

/-- `struct BodyPart { x: i32, y: i32 }` -/
structure BodyPart where
  x : Int
  y : Int
deriving DecidableEq, Repr

/-- `enum Direction { Right, Left, Up, Down }` -/
inductive Direction where
  | Right
  | Left
  | Up
  | Down
deriving DecidableEq, Repr, Fintype

/-- `struct Snake { body: LinkedList<BodyPart>, dir: Direction }` -/
structure Snake where
  body : List BodyPart
  dir : Direction
deriving DecidableEq, Repr

/-- `struct Game { snake: Snake, food: BodyPart }` (the `gl` graphics
handle is rendering-only and excluded). -/
structure Game where
  snake : Snake
  food : BodyPart
deriving DecidableEq, Repr

/-- The keyboard keys the game reacts to (`Key::Up/Down/Left/Right/Space`).
Any other key falls into the wildcard arm of `pressed` and changes
nothing; it is not modelled. -/
inductive Key where
  | Up
  | Down
  | Left
  | Right
  | Space
deriving DecidableEq, Repr, Fintype

/-- The head cell offset by one unit in direction `d`: the `match self.dir`
block of `Snake::update_direction`. -/
def offset_cell (d : Direction) (h : BodyPart) : BodyPart :=
  match d with
  | .Left => ⟨h.x - 1, h.y⟩
  | .Right => ⟨h.x + 1, h.y⟩
  | .Up => ⟨h.x, h.y - 1⟩
  | .Down => ⟨h.x, h.y + 1⟩

/-- `Snake::update_direction` (the advance step): clone the front cell,
offset it by one unit in `self.dir`, `push_front` it, `pop_back`.
`none` models the `expect("Snake has no body")` panic on an empty body;
the `pop_back().unwrap()` cannot fail because the list was just pushed. -/
def Snake.update_direction (s : Snake) : Option Snake :=
  match s.body with
  | [] => none
  | h :: t => some ⟨(offset_cell s.dir h :: h :: t).dropLast, s.dir⟩

/-- `Snake::grow`: clone the back cell, add 1 to its x, `push_back`.
`none` models the `expect` panic on an empty body. -/
def Snake.grow (s : Snake) : Option Snake :=
  match s.body.getLast? with
  | none => none
  | some tl => some ⟨s.body ++ [⟨tl.x + 1, tl.y⟩], s.dir⟩

/-- `Snake::check_eat`: the head cell equals the food cell. -/
def Snake.check_eat (s : Snake) (food : BodyPart) : Option Bool :=
  match s.body with
  | [] => none
  | h :: _ => some (h.x == food.x && h.y == food.y)

/-- `Snake::collision`: the head cell equals some other cell of the body
(the body with the front popped off). -/
def Snake.collision (s : Snake) : Option Bool :=
  match s.body with
  | [] => none
  | h :: t => some (t.any fun p => p.x == h.x && p.y == h.y)

/-- `Snake::out_of_bounds`: the head cell lies outside
`[0, GRID_COLUMNS) x [0, GRID_ROWS)`. -/
def Snake.out_of_bounds (s : Snake) : Option Bool :=
  match s.body with
  | [] => none
  | h :: _ =>
    some (decide (h.x < 0 ∨ h.x > GRID_COLUMNS - 1 ∨ h.y < 0 ∨ h.y > GRID_ROWS - 1))

/-- `Snake::init`: body `[(0,0), (0,1)]`, direction Right. -/
def Snake.init : Snake :=
  ⟨[⟨0, 0⟩, ⟨0, 1⟩], .Right⟩

/-- The `free_space` vector built by `Game::place_food`: all grid cells
`(x, y)` with `x` ascending in the outer loop and `y` ascending in the
inner loop, keeping the cells not occupied by any body part. -/
def free_space (body : List BodyPart) : List (Int × Int) :=
  ((List.range GRID_COLUMNS.toNat).map fun xn =>
    (List.range GRID_ROWS.toNat).filterMap fun yn =>
      if body.any fun p => p.x == (xn : Int) && p.y == (yn : Int) then none
      else some ((xn : Int), (yn : Int))).flatten

/-- `Game::place_food`: enumerate `free_space`, draw
`pos = rng.gen_range(1, free_space.len())`, and set the food to
`free_space[pos - 1]`.  The draw is explicit; `none` is returned for a
draw outside `[1, free_space.len())` — in particular for every draw when
`free_space.len() <= 1`, which is exactly when `gen_range` panics. -/
def Game.place_food (g : Game) (pos : Nat) : Option Game :=
  if h : 1 ≤ pos ∧ pos < (free_space g.snake.body).length then
    some ⟨g.snake, ⟨((free_space g.snake.body).get ⟨pos - 1, by omega⟩).1,
                    ((free_space g.snake.body).get ⟨pos - 1, by omega⟩).2⟩⟩
  else none

/-- `Game::is_end`: `self.snake.collision() || self.snake.out_of_bounds()`.
Rust's `||` short-circuits, but `out_of_bounds` can only panic on an empty
body, in which case `collision` has already panicked, so sequencing both
through `Option` is behaviour-equivalent. -/
def Game.is_end (g : Game) : Option Bool :=
  match g.snake.collision with
  | none => none
  | some c =>
    match g.snake.out_of_bounds with
    | none => none
    | some o => some (c || o)

/-- `Game::restart`: `self.snake = Snake::init(); self.place_food();`. -/
def Game.restart (g : Game) (pos : Nat) : Option Game :=
  Game.place_food ⟨Snake.init, g.food⟩ pos

/-- `Game::update` (one tick): if not `is_end`, then — if `check_eat` —
`grow` and `place_food`, and in every case `update_direction`. -/
def Game.update (g : Game) (pos : Nat) : Option Game :=
  match g.is_end with
  | none => none
  | some true => some g
  | some false =>
    match g.snake.check_eat g.food with
    | none => none
    | some true =>
      match g.snake.grow with
      | none => none
      | some s1 =>
        match Game.place_food ⟨s1, g.food⟩ pos with
        | none => none
        | some g1 =>
          match g1.snake.update_direction with
          | none => none
          | some s2 => some ⟨s2, g1.food⟩
    | some false =>
      match g.snake.update_direction with
      | none => none
      | some s2 => some ⟨s2, g.food⟩

/-- The direction written by the `match btn` block of `Game::pressed`:
each arrow key is accepted unless the current direction is its exact
opposite; every other key (and a rejected arrow) leaves the direction. -/
def new_dir (k : Key) (last_direction : Direction) : Direction :=
  match k with
  | .Up => if last_direction ≠ .Down then .Up else last_direction
  | .Down => if last_direction ≠ .Up then .Down else last_direction
  | .Left => if last_direction ≠ .Right then .Left else last_direction
  | .Right => if last_direction ≠ .Left then .Right else last_direction
  | .Space => last_direction

/-- The state of `Game::pressed` just after the `self.snake.dir = match btn`
assignment. -/
def Game.with_new_dir (g : Game) (k : Key) : Game :=
  ⟨⟨g.snake.body, new_dir k g.snake.dir⟩, g.food⟩

/-- `Game::pressed`: update the direction through the `match btn` block,
then, if the key is Space and `is_end()`, `restart`.  (Rust's `&&`
short-circuits, so `is_end` is only consulted for the Space key.) -/
def Game.pressed (g : Game) (k : Key) (pos : Nat) : Option Game :=
  if k = .Space then
    match (g.with_new_dir k).is_end with
    | none => none
    | some true => (g.with_new_dir k).restart pos
    | some false => some (g.with_new_dir k)
  else some (g.with_new_dir k)

/-- `make_game`: initial snake, food at the grid centre
`(GRID_COLUMNS / 2, GRID_ROWS / 2)`. -/
def make_game : Game :=
  ⟨Snake.init, ⟨GRID_COLUMNS / 2, GRID_ROWS / 2⟩⟩

/-- One external event delivered to the game: a timer tick or a key press.
`pos` is the random draw consumed if `place_food` runs during the event. -/
inductive GEvent where
  | tick (pos : Nat)
  | press (k : Key) (pos : Nat)

/-- The effect of one event on the game state (`game_loop` dispatch). -/
def GStep (g : Game) (e : GEvent) : Option Game :=
  match e with
  | .tick pos => g.update pos
  | .press k pos => g.pressed k pos

/-- Game states reachable from the initial state of `make_game` by any
sequence of ticks and key presses that do not panic. -/
inductive Reachable : Game → Prop where
  | init : Reachable make_game
  | step : ∀ g e g', Reachable g → GStep g e = some g' → Reachable g'

/-- The exact opposite of a direction (the reversal the guards in
`Game::pressed` reject). -/
def opposite (d : Direction) : Direction :=
  match d with
  | .Right => .Left
  | .Left => .Right
  | .Up => .Down
  | .Down => .Up

/-- The arrow key requesting direction `d`. -/
def key_of_dir (d : Direction) : Key :=
  match d with
  | .Up => .Up
  | .Down => .Down
  | .Left => .Left
  | .Right => .Right

/-- The failing input for food placement with exactly one free cell: every
grid cell except `(19, 19)`. -/
def all_cells : List BodyPart :=
  ((List.range GRID_COLUMNS.toNat).map fun xn =>
    (List.range GRID_ROWS.toNat).map fun yn => BodyPart.mk (xn : Int) (yn : Int)).flatten

/-- A snake body occupying all grid cells except `(19, 19)`. -/
def c2_body : List BodyPart :=
  all_cells.filter fun p => !(p.x == 19 && p.y == 19)

/-- Intermediate states of a two-presses-between-ticks run, starting from
`make_game`: after one tick (advanced Right). -/
def c7_g1 : Game := ⟨⟨[⟨1, 0⟩, ⟨0, 0⟩], .Right⟩, ⟨10, 10⟩⟩

/-- After the Up press delivered after the first tick. -/
def c7_g2 : Game := ⟨⟨[⟨1, 0⟩, ⟨0, 0⟩], .Up⟩, ⟨10, 10⟩⟩

/-- After the Left press delivered right after the Up press. -/
def c7_g3 : Game := ⟨⟨[⟨1, 0⟩, ⟨0, 0⟩], .Left⟩, ⟨10, 10⟩⟩

/-- A game state whose head has left the grid (driven into the left wall). -/
def wall_game : Game := ⟨⟨[⟨-1, 0⟩, ⟨0, 0⟩], .Left⟩, ⟨10, 10⟩⟩

/-- A game state whose head sits on the food cell. -/
def eating_game : Game := ⟨⟨[⟨10, 10⟩, ⟨9, 10⟩], .Right⟩, ⟨10, 10⟩⟩

section Helpers

theorem get_mem_dropLast {α : Type} (l : List α) (i : Nat) (h1 : i < l.length)
    (h2 : i + 1 < l.length) : l.get ⟨i, h1⟩ ∈ l.dropLast := by
  rw [List.dropLast_eq_take]
  have hlen : i < (List.take (l.length - 1) l).length := by
    simp only [List.length_take]
    omega
  have hgt : (List.take (l.length - 1) l).get ⟨i, hlen⟩ = l.get ⟨i, h1⟩ := by
    simp [List.get_eq_getElem, List.getElem_take]
  rw [← hgt]
  exact List.get_mem _ _ _

theorem mem_free_space {body : List BodyPart} {x y : Int}
    (h : (x, y) ∈ free_space body) : ∀ p ∈ body, ¬(p.x = x ∧ p.y = y) := by
  unfold free_space at h
  rw [List.mem_flatten] at h
  obtain ⟨l, hl, hmem⟩ := h
  rw [List.mem_map] at hl
  obtain ⟨xn, hxn, rfl⟩ := hl
  rw [List.mem_filterMap] at hmem
  obtain ⟨yn, hyn, hif⟩ := hmem
  by_cases hocc : body.any fun p => p.x == (xn : Int) && p.y == (yn : Int)
  · simp [hocc] at hif
  · simp only [hocc, if_false, Option.some.injEq, Prod.mk.injEq] at hif
    obtain ⟨rfl, rfl⟩ := hif
    intro p hp hpxy
    exact hocc (List.any_eq_true.mpr ⟨p, hp, by simp [hpxy.1, hpxy.2]⟩)

theorem place_food_some {g : Game} {pos : Nat} {g' : Game}
    (h : g.place_food pos = some g') :
    g'.snake = g.snake ∧ (g'.food.x, g'.food.y) ∈ (free_space g.snake.body).dropLast := by
  unfold Game.place_food at h
  split at h
  next hb =>
    injection h with h
    subst h
    refine ⟨rfl, ?_⟩
    exact get_mem_dropLast _ _ _ (by omega)
  next => cases h

theorem place_food_food_free {g : Game} {pos : Nat} {g' : Game}
    (h : g.place_food pos = some g') : g'.food ∉ g.snake.body := by
  intro hmem
  have hfs := (place_food_some h).2
  have hfs' : (g'.food.x, g'.food.y) ∈ free_space g.snake.body :=
    List.dropLast_subset _ hfs
  exact mem_free_space hfs' g'.food hmem ⟨rfl, rfl⟩

theorem update_direction_length {s s' : Snake}
    (h : s.update_direction = some s') : s'.body.length = s.body.length := by
  unfold Snake.update_direction at h
  split at h
  next => cases h
  next hd t heq =>
    injection h with h
    subst h
    simp [List.length_dropLast, heq]

theorem update_direction_dir {s s' : Snake}
    (h : s.update_direction = some s') : s'.dir = s.dir := by
  unfold Snake.update_direction at h
  split at h
  next => cases h
  next hd t heq =>
    injection h with h
    subst h
    rfl

theorem grow_length {s s' : Snake}
    (h : s.grow = some s') : s'.body.length = s.body.length + 1 := by
  unfold Snake.grow at h
  split at h
  next => cases h
  next tl heq =>
    injection h with h
    subst h
    simp

theorem grow_dir {s s' : Snake} (h : s.grow = some s') : s'.dir = s.dir := by
  unfold Snake.grow at h
  split at h
  next => cases h
  next tl heq =>
    injection h with h
    subst h
    rfl

theorem update_length_ge {g : Game} {pos : Nat} {g' : Game}
    (h : g.update pos = some g') : g.snake.body.length ≤ g'.snake.body.length := by
  unfold Game.update at h
  split at h
  next => cases h
  next =>
    injection h with h
    subst h
    exact le_refl _
  next =>
    split at h
    next => cases h
    next =>
      split at h
      next => cases h
      next s1 hgrow =>
        split at h
        next => cases h
        next g1 hpf =>
          split at h
          next => cases h
          next s2 hadv =>
            injection h with h
            subst h
            have h1 := update_direction_length hadv
            have h2 : g1.snake = s1 := (place_food_some hpf).1
            have h3 := grow_length hgrow
            show g.snake.body.length ≤ s2.body.length
            rw [h1, h2, h3]
            omega
    next =>
      split at h
      next => cases h
      next s2 hadv =>
        injection h with h
        subst h
        have h1 := update_direction_length hadv
        show g.snake.body.length ≤ s2.body.length
        omega

theorem update_dir_eq {g : Game} {pos : Nat} {g' : Game}
    (h : g.update pos = some g') : g'.snake.dir = g.snake.dir := by
  unfold Game.update at h
  split at h
  next => cases h
  next =>
    injection h with h
    subst h
    rfl
  next =>
    split at h
    next => cases h
    next =>
      split at h
      next => cases h
      next s1 hgrow =>
        split at h
        next => cases h
        next g1 hpf =>
          split at h
          next => cases h
          next s2 hadv =>
            injection h with h
            subst h
            have h1 := update_direction_dir hadv
            have h2 := (place_food_some hpf).1
            have h3 := grow_dir hgrow
            simp only [h1, h2, h3]
    next =>
      split at h
      next => cases h
      next s2 hadv =>
        injection h with h
        subst h
        exact update_direction_dir hadv

theorem pressed_body_cases {g : Game} {k : Key} {pos : Nat} {g' : Game}
    (h : g.pressed k pos = some g') :
    g'.snake.body = g.snake.body ∨ g'.snake.body = Snake.init.body := by
  unfold Game.pressed at h
  split at h
  next =>
    split at h
    next => cases h
    next =>
      unfold Game.restart at h
      have := (place_food_some h).1
      right
      rw [this]
    next =>
      injection h with h
      subst h
      left
      rfl
  next =>
    injection h with h
    subst h
    left
    rfl

theorem restart_snake {g : Game} {pos : Nat} {g' : Game}
    (h : g.restart pos = some g') : g'.snake = Snake.init := by
  unfold Game.restart at h
  exact (place_food_some h).1

theorem reachable_body_length : ∀ g, Reachable g → 2 ≤ g.snake.body.length := by
  intro g h
  induction h with
  | init => decide
  | step g e g' hr hstep ih =>
    cases e with
    | tick pos =>
      have := @update_length_ge g pos g' hstep
      omega
    | press k pos =>
      rcases @pressed_body_cases g k pos g' hstep with hb | hb
      · rw [hb]
        exact ih
      · rw [hb]
        decide

theorem new_dir_key_of : ∀ r d, new_dir (key_of_dir r) d = if r = opposite d then d else r := by
  decide

theorem new_dir_ne_opposite : ∀ k d, new_dir k d ≠ opposite d := by
  decide

theorem ne_opposite_self : ∀ d, d ≠ opposite d := by
  decide

theorem with_new_dir_is_end (g : Game) (k : Key) :
    (g.with_new_dir k).is_end = g.is_end := rfl

theorem pressed_not_ended {g : Game} {k : Key} {pos : Nat}
    (h : g.is_end = some false) : g.pressed k pos = some (g.with_new_dir k) := by
  unfold Game.pressed
  by_cases hk : k = Key.Space
  · rw [if_pos hk, with_new_dir_is_end, h]
  · rw [if_neg hk]

theorem init_is_end (f : BodyPart) : Game.is_end ⟨Snake.init, f⟩ = some false := rfl

end Helpers

/-- C3: the snake body length is at least 2 in every state reachable from
the initial state by any sequence of ticks, direction-change requests and
restart requests; the initial body has length 2, advance
(`update_direction`) preserves the length, `grow` increases it by 1, and
`restart` resets it to 2. -/
theorem C3_body_length_invariant :
    (∀ g, Reachable g → 2 ≤ g.snake.body.length)
    ∧ Snake.init.body.length = 2
    ∧ (∀ s s' : Snake, s.update_direction = some s' → s'.body.length = s.body.length)
    ∧ (∀ s s' : Snake, s.grow = some s' → s'.body.length = s.body.length + 1)
    ∧ (∀ (g : Game) (pos : Nat) (g' : Game), g.restart pos = some g' →
        g'.snake.body.length = 2) :=
  ⟨reachable_body_length, rfl,
   fun _ _ h => update_direction_length h,
   fun _ _ h => grow_length h,
   fun _ _ _ h => by rw [restart_snake h]; rfl⟩


/-- Witness for C3: the invariant at the initial state, a concrete grow,
and a concrete restart. -/
theorem C3_body_length_invariant_witness :
    2 ≤ make_game.snake.body.length
    ∧ (Snake.mk [⟨5, 5⟩, ⟨5, 6⟩, ⟨6, 6⟩] .Right).body.length =
        (Snake.mk [⟨5, 5⟩, ⟨5, 6⟩] .Right).body.length + 1
    ∧ (Game.mk Snake.init ⟨0, 2⟩).snake.body.length = 2 :=
  ⟨C3_body_length_invariant.1 make_game Reachable.init,
   C3_body_length_invariant.2.2.2.1 _ _ (by decide),
   C3_body_length_invariant.2.2.2.2 wall_game 1 _ (by decide)⟩

/-- C4: whenever placeFood completes, the assigned food cell is not equal
to any cell of the snake body at that moment (and the snake itself is
untouched). -/
theorem C4_food_not_on_body (g : Game) (pos : Nat) (g' : Game)
    (h : g.place_food pos = some g') :
    g'.snake = g.snake ∧ g'.food ∉ g.snake.body :=
  ⟨(place_food_some h).1, place_food_food_free h⟩

/-- Witness for C4 at the initial game and draw 1: the placed food cell
`(0, 2)` is not on the initial body. -/
theorem C4_food_not_on_body_witness :
    make_game.place_food 1 = some ⟨Snake.init, ⟨0, 2⟩⟩
    ∧ (⟨0, 2⟩ : BodyPart) ∉ make_game.snake.body := by
  have h : make_game.place_food 1 = some ⟨Snake.init, ⟨0, 2⟩⟩ := by decide
  exact ⟨h, (C4_food_not_on_body make_game 1 _ h).2⟩

/-- C6: for every non-empty body, advance offsets the current head by
exactly one unit in the current direction (Left: x-1, Right: x+1,
Up: y-1, Down: y+1), pushes the new head to the front and removes the
tail, preserving the length. -/
theorem C6_advance_shifts_head (s : Snake) (h : BodyPart) (t : List BodyPart)
    (hb : s.body = h :: t) :
    s.update_direction = some ⟨offset_cell s.dir h :: (h :: t).dropLast, s.dir⟩
    ∧ (∀ s', s.update_direction = some s' → s'.body.length = s.body.length)
    ∧ offset_cell .Left h = ⟨h.x - 1, h.y⟩
    ∧ offset_cell .Right h = ⟨h.x + 1, h.y⟩
    ∧ offset_cell .Up h = ⟨h.x, h.y - 1⟩
    ∧ offset_cell .Down h = ⟨h.x, h.y + 1⟩ := by
  refine ⟨?_, fun s' hs => update_direction_length hs, rfl, rfl, rfl, rfl⟩
  unfold Snake.update_direction
  rw [hb]
  simp

/-- Witness for C6: body `[(5,5),(5,6)]` with direction Right advances to
`[(6,5),(5,5)]`. -/
theorem C6_advance_shifts_head_witness :
    (Snake.mk [⟨5, 5⟩, ⟨5, 6⟩] .Right).update_direction =
      some (Snake.mk [⟨6, 5⟩, ⟨5, 5⟩] .Right) := by
  have h := C6_advance_shifts_head (Snake.mk [⟨5, 5⟩, ⟨5, 6⟩] .Right) ⟨5, 5⟩ [⟨5, 6⟩] rfl
  exact h.1.trans (by decide)

/-- C8: a direction-change request opposite to the current direction is
ignored (the direction is unchanged); any other request immediately
replaces the current direction; body and food are untouched either way. -/
theorem C8_direction_change_rule (g : Game) (r : Direction) (pos : Nat) :
    g.pressed (key_of_dir r) pos =
      some ⟨⟨g.snake.body, if r = opposite g.snake.dir then g.snake.dir else r⟩, g.food⟩ := by
  have hk : key_of_dir r ≠ Key.Space := by cases r <;> simp [key_of_dir]
  unfold Game.pressed
  rw [if_neg hk]
  unfold Game.with_new_dir
  rw [new_dir_key_of]

/-- C5: the per-tick contract: a tick on an ended game (head collides with
the body or is out of bounds) leaves the whole state unchanged; otherwise,
if the head equals the food cell, grow and placeFood run first and advance
runs afterwards; if not, only advance runs; and after any completed tick
the ended condition equals collision OR outOfBounds. -/
theorem C5_tick_contract (g : Game) (pos : Nat) :
    (g.is_end = some true → g.update pos = some g)
    ∧ (g.is_end = some false → g.snake.check_eat g.food = some false →
        g.update pos = (g.snake.update_direction).map fun s2 => Game.mk s2 g.food)
    ∧ (g.is_end = some false → g.snake.check_eat g.food = some true →
        g.update pos =
          ((g.snake.grow.bind fun s1 => Game.place_food ⟨s1, g.food⟩ pos).bind
            fun g1 => (g1.snake.update_direction).map fun s2 => Game.mk s2 g1.food))
    ∧ (∀ g' c o, g.update pos = some g' → g'.snake.collision = some c →
        g'.snake.out_of_bounds = some o → g'.is_end = some (c || o)) := by
  refine ⟨?_, ?_, ?_, ?_⟩
  · intro he
    unfold Game.update
    rw [he]
  · intro he hc
    unfold Game.update
    rw [he, hc]
    cases g.snake.update_direction <;> rfl
  · intro he hc
    unfold Game.update
    rw [he, hc]
    cases g.snake.grow with
    | none => rfl
    | some s1 =>
      show (match Game.place_food ⟨s1, g.food⟩ pos with
        | none => none
        | some g1 =>
          match g1.snake.update_direction with
          | none => none
          | some s2 => some (Game.mk s2 g1.food)) =
        (Game.place_food ⟨s1, g.food⟩ pos).bind fun g1 =>
          (g1.snake.update_direction).map fun s2 => Game.mk s2 g1.food
      cases Game.place_food ⟨s1, g.food⟩ pos with
      | none => rfl
      | some g1 =>
        show (match g1.snake.update_direction with
          | none => none
          | some s2 => some (Game.mk s2 g1.food)) =
          (g1.snake.update_direction).map fun s2 => Game.mk s2 g1.food
        cases g1.snake.update_direction <;> rfl
  · intro g' c o hu hc ho
    unfold Game.is_end
    rw [hc, ho]

/-- Witness for C5: a tick on an ended game is a no-op, a non-eating tick
only advances, an eating tick grows, replaces the food and advances, and
the ended condition after a tick is collision OR out-of-bounds. -/
theorem C5_tick_contract_witness :
    Game.update wall_game 0 = some wall_game
    ∧ Game.update make_game 0 = some c7_g1
    ∧ Game.update eating_game 1 =
        some ⟨⟨[⟨11, 10⟩, ⟨10, 10⟩, ⟨9, 10⟩], .Right⟩, ⟨0, 0⟩⟩
    ∧ c7_g1.is_end = some (false || false) := by
  refine ⟨?_, ?_, ?_, ?_⟩
  · exact (C5_tick_contract wall_game 0).1 (by decide)
  · exact ((C5_tick_contract make_game 0).2.1 (by decide) (by decide)).trans (by decide)
  · exact ((C5_tick_contract eating_game 1).2.2.1 (by decide) (by decide)).trans (by decide)
  · exact (C5_tick_contract make_game 0).2.2.2 c7_g1 false false (by decide) (by decide)
      (by decide)

/-- C9: a restart request (Space) is honored only while the game is ended:
while running it leaves the state unchanged; when honored it resets the
snake to the initial body `[(0,0),(0,1)]` of length 2 with direction
Right, places the food through placeFood on the fresh body, and the game
is running again (`is_end` is false). -/
theorem C9_restart_only_when_ended (g : Game) (pos : Nat) :
    (g.is_end = some false → g.pressed .Space pos = some g)
    ∧ (g.is_end = some true → ∀ g', g.pressed .Space pos = some g' →
        g'.snake = Snake.init
        ∧ g'.snake.body = [⟨0, 0⟩, ⟨0, 1⟩]
        ∧ g'.snake.body.length = 2
        ∧ g'.snake.dir = .Right
        ∧ g'.is_end = some false
        ∧ Game.place_food ⟨Snake.init, g.food⟩ pos = some g') := by
  constructor
  · intro he
    exact pressed_not_ended he
  · intro he g' hp
    unfold Game.pressed at hp
    rw [if_pos rfl, with_new_dir_is_end, he] at hp
    have hpf : Game.place_food ⟨Snake.init, g.food⟩ pos = some g' := hp
    have hsnake : g'.snake = Snake.init := (place_food_some hpf).1
    refine ⟨hsnake, by rw [hsnake]; rfl, by rw [hsnake]; rfl, by rw [hsnake]; rfl, ?_, hpf⟩
    have : g' = ⟨g'.snake, g'.food⟩ := rfl
    rw [this, hsnake]
    exact init_is_end g'.food

/-- Witness for C9: Space on the running initial game changes nothing;
Space on a game whose head left the grid restarts it. -/
theorem C9_restart_only_when_ended_witness :
    make_game.pressed .Space 0 = some make_game
    ∧ (Game.mk Snake.init ⟨0, 2⟩).snake.body = [⟨0, 0⟩, ⟨0, 1⟩]
    ∧ (Game.mk Snake.init ⟨0, 2⟩).snake.dir = .Right
    ∧ (Game.mk Snake.init ⟨0, 2⟩).is_end = some false := by
  have h2 := (C9_restart_only_when_ended wall_game 1).2 (by decide)
    ⟨Snake.init, ⟨0, 2⟩⟩ (by decide)
  exact ⟨(C9_restart_only_when_ended make_game 0).1 (by decide),
    h2.2.1, h2.2.2.2.1, h2.2.2.2.2.1⟩

/-- C10: out_of_bounds is a function of the head cell only — with an
in-bounds head it is false whatever the remaining cells (and direction)
are; grow on a tail at x = GRID_COLUMNS - 1 appends the out-of-grid cell
(GRID_COLUMNS, y), which is itself outside the grid but never changes the
ended condition. -/
theorem C10_out_of_bounds_head_only (d d' : Direction) (h tl : BodyPart)
    (t t' : List BodyPart) (s : Snake)
    (hin : 0 ≤ h.x ∧ h.x < GRID_COLUMNS ∧ 0 ≤ h.y ∧ h.y < GRID_ROWS)
    (hlast : s.body.getLast? = some tl) (hx : tl.x = GRID_COLUMNS - 1) :
    Snake.out_of_bounds ⟨h :: t, d⟩ = Snake.out_of_bounds ⟨h :: t', d'⟩
    ∧ Snake.out_of_bounds ⟨h :: t, d⟩ = some false
    ∧ s.grow = some ⟨s.body ++ [⟨GRID_COLUMNS, tl.y⟩], s.dir⟩
    ∧ Snake.out_of_bounds ⟨⟨GRID_COLUMNS, tl.y⟩ :: t, d⟩ = some true
    ∧ (∀ s' : Snake, s.grow = some s' → ∀ fd : BodyPart,
        Game.is_end ⟨s', fd⟩ = Game.is_end ⟨s, fd⟩) := by
  obtain ⟨hx0, hx1, hy0, hy1⟩ := hin
  have hgrow : s.grow = some ⟨s.body ++ [⟨GRID_COLUMNS, tl.y⟩], s.dir⟩ := by
    have hxc : tl.x + 1 = GRID_COLUMNS := by rw [hx]; ring
    unfold Snake.grow
    rw [hlast, ← hxc]
  refine ⟨rfl, ?_, hgrow, ?_, ?_⟩
  · unfold Snake.out_of_bounds
    simp only [Option.some.injEq, decide_eq_false_iff_not]
    unfold GRID_COLUMNS GRID_ROWS at *
    omega
  · unfold Snake.out_of_bounds
    simp only [Option.some.injEq, decide_eq_true_eq]
    unfold GRID_COLUMNS GRID_ROWS
    omega
  · intro s' hs' fd
    rw [hgrow] at hs'
    injection hs' with hs'
    subst hs'
    obtain ⟨body, dir⟩ := s
    cases hbody : body with
    | nil =>
      rw [hbody] at hlast
      cases hlast
    | cons hh tt =>
      subst hbody
      unfold Game.is_end Snake.collision Snake.out_of_bounds
      simp only [List.cons_append, List.any_append, List.any_cons, List.any_nil,
        Bool.or_false]
      by_cases hhx : hh.x = GRID_COLUMNS
      · have hoob : decide (hh.x < 0 ∨ hh.x > GRID_COLUMNS - 1 ∨ hh.y < 0 ∨
            hh.y > GRID_ROWS - 1) = true := by
          simp only [decide_eq_true_eq]
          unfold GRID_COLUMNS GRID_ROWS at *
          omega
        rw [hoob]
        simp
      · have hne : (GRID_COLUMNS == hh.x) = false := by
          simp only [beq_eq_false_iff_ne, ne_eq]
          intro hcontra
          exact hhx hcontra.symm
        simp [hne]

/-- Witness for C10: a body whose second cell (20,5) lies outside the grid
is not out of bounds because the head (0,0) is inside; growing a snake
whose tail is at x = 19 appends (20,5) and leaves the ended condition
unchanged. -/
theorem C10_out_of_bounds_head_only_witness :
    Snake.out_of_bounds ⟨[⟨0, 0⟩, ⟨20, 5⟩], .Right⟩ = some false
    ∧ (Snake.mk [⟨0, 0⟩, ⟨19, 5⟩] .Right).grow =
        some (Snake.mk ([⟨0, 0⟩, ⟨19, 5⟩] ++ [⟨GRID_COLUMNS, 5⟩]) .Right)
    ∧ Snake.out_of_bounds ⟨⟨GRID_COLUMNS, 5⟩ :: [⟨20, 5⟩], .Right⟩ = some true
    ∧ Game.is_end ⟨⟨[⟨0, 0⟩, ⟨19, 5⟩] ++ [⟨GRID_COLUMNS, 5⟩], .Right⟩, ⟨10, 10⟩⟩ =
        Game.is_end ⟨⟨[⟨0, 0⟩, ⟨19, 5⟩], .Right⟩, ⟨10, 10⟩⟩ := by
  have hthm := C10_out_of_bounds_head_only .Right .Left ⟨0, 0⟩ ⟨19, 5⟩ [⟨20, 5⟩] []
    (Snake.mk [⟨0, 0⟩, ⟨19, 5⟩] .Right) (by decide) (by decide) (by decide)
  exact ⟨hthm.2.1, hthm.2.2.1, hthm.2.2.2.1,
    hthm.2.2.2.2 _ hthm.2.2.1 ⟨10, 10⟩⟩

/-- C7 counterexample: from the initial game one tick advances Right;
two direction-change requests delivered before the next tick (Up, then
Left) are both accepted by the guard, so the game is running with
direction Left — the exact opposite of Right — and the next tick does
advance the head one unit to the left.  The claim that the advance
direction is never the exact opposite of the previous tick's advance
direction fails for this two-request sequence. -/
theorem C7_reversal_counterexample :
    make_game.snake.dir = .Right
    ∧ Game.update make_game 0 = some c7_g1
    ∧ c7_g1.snake.dir = .Right
    ∧ c7_g1.pressed .Up 0 = some c7_g2
    ∧ c7_g2.pressed .Left 0 = some c7_g3
    ∧ c7_g3.is_end = some false
    ∧ c7_g3.snake.dir = opposite c7_g1.snake.dir
    ∧ Game.update c7_g3 0 = some ⟨⟨[⟨0, 0⟩, ⟨1, 0⟩], .Left⟩, ⟨10, 10⟩⟩ := by
  decide

/-- C7 amended: provided at most one direction-change request is delivered
between two consecutive ticks that both advance (with zero requests the
direction is unchanged, and a direction never equals its own opposite),
the direction used by a tick's advance is never the exact opposite of the
direction used by the immediately preceding tick's advance.  With two or
more requests between ticks, reversal can occur. -/
theorem C7_no_reversal_single_request (g : Game) (pos posq : Nat) (k : Key)
    (g' g'' : Game)
    (h1 : g.update pos = some g') (h2 : g'.is_end = some false)
    (h3 : g'.pressed k posq = some g'') :
    g'.snake.dir ≠ opposite g.snake.dir
    ∧ g''.snake.dir ≠ opposite g.snake.dir := by
  have hd : g'.snake.dir = g.snake.dir := update_dir_eq h1
  constructor
  · rw [hd]
    exact ne_opposite_self g.snake.dir
  · rw [pressed_not_ended h2] at h3
    injection h3 with h3
    subst h3
    show new_dir k g'.snake.dir ≠ opposite g.snake.dir
    rw [hd]
    exact new_dir_ne_opposite k g.snake.dir

/-- Witness for C7 amended: one tick from the initial game, then a single
Up request; the next tick's direction Up is not the opposite of Right. -/
theorem C7_no_reversal_single_request_witness :
    c7_g2.snake.dir ≠ opposite make_game.snake.dir := by
  have h := C7_no_reversal_single_request make_game 0 0 .Up c7_g1 c7_g2
    (by decide) (by decide) (by decide)
  exact h.2

/-- C1: the last free cell is never selectable.  For the initial body the
free set ends with the genuinely free cell (19,19), yet every completed
placeFood call assigns a cell of `free_space.dropLast`: the draw ranges
over [1, len) and the code indexes `free_space[pos - 1]`, so index
len - 1 is unreachable.  This refutes the claim that every free cell,
including the last one, can be selected. -/
theorem C1_last_free_cell_unreachable :
    (free_space make_game.snake.body).getLast? = some ((19 : Int), (19 : Int))
    ∧ ((19 : Int), (19 : Int)) ∉ (free_space make_game.snake.body).dropLast
    ∧ ∀ (pos : Nat) (g' : Game), make_game.place_food pos = some g' →
        (g'.food.x, g'.food.y) ∈ (free_space make_game.snake.body).dropLast := by
  refine ⟨by decide, by decide, ?_⟩
  intro pos g' h
  exact (place_food_some h).2

/-- Witness for C1: the completed call with draw 1 assigns (0,2), which
lies in the selectable prefix of the free set. -/
theorem C1_last_free_cell_unreachable_witness :
    make_game.place_food 1 = some ⟨Snake.init, ⟨0, 2⟩⟩
    ∧ (((Game.mk Snake.init ⟨0, 2⟩).food.x, (Game.mk Snake.init ⟨0, 2⟩).food.y) ∈
        (free_space make_game.snake.body).dropLast) := by
  have h : make_game.place_food 1 = some ⟨Snake.init, ⟨0, 2⟩⟩ := by decide
  exact ⟨h, C1_last_free_cell_unreachable.2.2 1 _ h⟩

/-- C2: placeFood can fail although a free cell exists.  With the 399-cell
body `c2_body` exactly one cell, (19,19), is free, yet placeFood fails for
every random draw — `gen_range(1, free_space.len())` is `gen_range(1, 1)`,
which panics.  This refutes the claim that the failure branch is reachable
only when no free cell exists. -/
theorem C2_place_food_panics_one_free :
    free_space c2_body = [((19 : Int), (19 : Int))]
    ∧ ∀ pos : Nat, Game.place_food ⟨⟨c2_body, .Right⟩, ⟨0, 0⟩⟩ pos = none := by
  have hfs : free_space c2_body = [((19 : Int), (19 : Int))] := by decide
  refine ⟨hfs, ?_⟩
  intro pos
  have hlen : (free_space (Game.mk ⟨c2_body, .Right⟩ ⟨0, 0⟩).snake.body).length = 1 := by
    show (free_space c2_body).length = 1
    rw [hfs]
    rfl
  unfold Game.place_food
  rw [dif_neg]
  intro hc
  rw [hlen] at hc
  omega

/-- Witness for C2: the failing call evaluated at the concrete draw 1. -/
theorem C2_place_food_panics_one_free_witness :
    Game.place_food ⟨⟨c2_body, .Right⟩, ⟨0, 0⟩⟩ 1 = none :=
  C2_place_food_panics_one_free.2 1
